import Mathlib

/-!
# Verification of `queue_check.py` (Brown-University-Library/queue_checker)

A shallow embedding of the core of `src/queue_check.py`: the rqinfo report
parser `parse_rqinfo` and the evaluator `evaluate_qdata`, together with a
model of the history load (`load_previous_rqinfo_data`).

Python strings are modelled as `List Char`; Python string operations
(`str.strip`, `str.split`, `int(...)`) are modelled over ASCII whitespace,
which covers every input considered here.  Python dicts with string keys are
modelled as insertion-ordered association lists.  Fallible Python code
(unpacking a split result, `int(...)`, indexing `[0]`) returns `Except`.
-/

namespace QueueChecker

/-- The Python exceptions the parser can raise: `ValueError` from tuple
unpacking with the wrong number of parts or from `int(...)` on a non-numeric
string, and `IndexError` from `part.split()[0]` on a token-free part. -/
inductive PyError where
  | valueError
  | indexError
  deriving DecidableEq, Repr

/-- Python whitespace as used by `str.strip()` / `str.split()` (ASCII part):
space, tab, newline, carriage return, vertical tab, form feed. -/
def isPySpace (c : Char) : Bool :=
  decide (c = ' ') || decide (c = '\t') || decide (c = '\n') ||
  decide (c = '\r') || decide (c = '\x0b') || decide (c = '\x0c')

/-- Split a character list at every character satisfying `p`, keeping empty
pieces — the behaviour of Python `str.split(sep)` for a one-character `sep`
(with `p` deciding equality with `sep`). -/
def splitOnP (p : Char → Bool) : List Char → List (List Char)
  | [] => [[]]
  | c :: rest =>
    match splitOnP p rest with
    | [] => [[c]]
    | h :: t => if p c then [] :: h :: t else (c :: h) :: t

/-- Python `s.split(sep)` for a single-character separator `sep`. -/
def pySplitSep (sep : Char) (l : List Char) : List (List Char) :=
  splitOnP (fun c => decide (c = sep)) l

/-- Python `s.split()` (no argument): split on whitespace runs, dropping
empty pieces. -/
def pySplitWs (l : List Char) : List (List Char) :=
  (splitOnP isPySpace l).filter (fun w => !w.isEmpty)

/-- Python `s.strip()`: remove leading and trailing whitespace. -/
def pyStrip (l : List Char) : List Char :=
  ((l.dropWhile isPySpace).reverse.dropWhile isPySpace).reverse

/-- Tail of a Python integer literal after its first digit: digits with
single underscores allowed only between digits. -/
def pyDigitTail : List Char → Bool
  | [] => true
  | '_' :: rest =>
    match rest with
    | [] => false
    | c :: r => c.isDigit && pyDigitTail r
  | c :: rest => c.isDigit && pyDigitTail rest

/-- A Python `digitpart`: nonempty, starts with a digit, underscores only
between digits. -/
def pyDigitPart : List Char → Bool
  | [] => false
  | c :: rest => c.isDigit && pyDigitTail rest

/-- Numeric value of a digit string, ignoring underscores. -/
def pyDigitsVal (l : List Char) : Nat :=
  l.foldl (fun acc c => if c = '_' then acc else acc * 10 + (c.toNat - '0'.toNat)) 0

/-- Python `int(s)` on a string: optional surrounding whitespace, optional
sign, then a digit part; `none` models `ValueError`. -/
def pyInt (tok : List Char) : Option Int :=
  let t := pyStrip tok
  match t with
  | '+' :: rest => if pyDigitPart rest then some (pyDigitsVal rest : Int) else none
  | '-' :: rest => if pyDigitPart rest then some (-(pyDigitsVal rest : Int)) else none
  | _ => if pyDigitPart t then some (pyDigitsVal t : Int) else none

/-- Boolean list membership by decidable equality (Python `x in list`). -/
def lmem {α : Type} [DecidableEq α] (a : α) : List α → Bool
  | [] => false
  | x :: r => if x = a then true else lmem a r

/-- Insertion-ordered dict assignment `d[k] = v`: overwrite in place if the
key exists, else append at the end (Python dict semantics). -/
def dictInsert {α : Type} (k : String) (v : α) :
    List (String × α) → List (String × α)
  | [] => [(k, v)]
  | (k', v') :: rest =>
    if k' = k then (k, v) :: rest else (k', v') :: dictInsert k v rest

/-- Dict lookup `d[k]` / `k in d` combined: `some v` iff the key is present. -/
def dictGet? {α : Type} (d : List (String × α)) (k : String) : Option α :=
  match d with
  | [] => none
  | (k', v) :: rest => if k' = k then some v else dictGet? rest k

/-- The parsed rqinfo snapshot: the dict
`{'failed_count': …, 'queues': […], 'workers_by_queue': {…}}` built by
`parse_rqinfo`. -/
structure Snapshot where
  failed_count : Int
  queues : List String
  workers_by_queue : List (String × List String)
  deriving DecidableEq, Repr

/-- The keys of `workers_by_queue`, in insertion order. -/
def snapKeys (s : Snapshot) : List String :=
  s.workers_by_queue.map Prod.fst

/-- The em-dash-like sentinel rqinfo prints for a queue with no workers
(U+2013). -/
def dashSentinel : List Char := "–".data

/-- `part.split()[0]` for one comma-separated worker descriptor: the first
whitespace-delimited token, `none` modelling `IndexError` when there is
none. -/
def firstToken (part : List Char) : Option String :=
  match pySplitWs part with
  | [] => none
  | t :: _ => some (String.mk t)

/-- The comprehension `[part.split()[0] for part in worker_data.split(',')]`:
all first tokens, failing if any part has none. -/
def extractWorkers : List (List Char) → Option (List String)
  | [] => some []
  | p :: rest =>
    match firstToken p, extractWorkers rest with
    | some n, some ns => some (n :: ns)
    | _, _ => none

/-- One iteration of the line loop in `parse_rqinfo` (queue_check.py lines
120–138): strip the line; skip it if blank; if it starts with `queue`,
unpack `queue <name> <count>`, append the name to `queues` and, when the
name is `failed`, set `failed_count` to `int(count)`; otherwise unpack
`<name>: <worker-data>` at the colons, and set `workers_by_queue[<name>]`
to `[]` for the dash sentinel or to the first token of each comma-separated
part. -/
def parseLine (st : Snapshot) (lraw : List Char) : Except PyError Snapshot :=
  let line := pyStrip lraw
  if line = [] then .ok st
  else if ("queue".data).isPrefixOf line then
    match pySplitWs line with
    | [_, qn, cnt] =>
      let qname := String.mk qn
      if qname = "failed" then
        match pyInt cnt with
        | some n => .ok { st with queues := st.queues ++ [qname], failed_count := n }
        | none => .error .valueError
      else .ok { st with queues := st.queues ++ [qname] }
    | _ => .error .valueError
  else
    match pySplitSep ':' line with
    | [qn, wdRaw] =>
      let worker_data := pyStrip wdRaw
      if worker_data = dashSentinel then
        .ok { st with workers_by_queue := dictInsert (String.mk qn) [] st.workers_by_queue }
      else
        match extractWorkers (pySplitSep ',' worker_data) with
        | some names =>
          .ok { st with workers_by_queue := dictInsert (String.mk qn) names st.workers_by_queue }
        | none => .error .indexError
    | _ => .error .valueError

/-- The line loop of `parse_rqinfo`: process the lines in order, aborting at
the first raised exception. -/
def parseLines (st : Snapshot) : List (List Char) → Except PyError Snapshot
  | [] => .ok st
  | l :: rest =>
    match parseLine st l with
    | .ok st' => parseLines st' rest
    | .error e => .error e

/-- `parse_rqinfo` (queue_check.py lines 93–141): split the output on
newlines and run the line loop from the initial dict
`{'failed_count': 0, 'queues': [], 'workers_by_queue': {}}`. -/
def parse_rqinfo (rq_output : String) : Except PyError Snapshot :=
  parseLines ⟨0, [], []⟩ (pySplitSep '\n' rq_output.data)

/-- The Scenario A report from the doctest of `parse_rqinfo`. -/
def scenarioA : String :=
  "queue q_1 0\nqueue q_2 0\nqueue failed 333\nq_1: server.968 (idle), server.952 (idle)\nq_2: server.952 (idle)\nfailed: –\n"

/-- **C1.** Applying `parse_rqinfo` to the exact Scenario A report returns
the snapshot with `failed_count = 333`, `queues = [q_1, q_2, failed]` in
that order, and `workers_by_queue` mapping `q_1` to
`[server.968, server.952]`, `q_2` to `[server.952]` and `failed` to `[]`. -/
theorem parse_scenarioA :
    parse_rqinfo scenarioA =
      .ok { failed_count := 333,
            queues := ["q_1", "q_2", "failed"],
            workers_by_queue :=
              [("q_1", ["server.968", "server.952"]),
               ("q_2", ["server.952"]),
               ("failed", [])] } := by
  rfl

/-! ## The evaluator -/

/-- The expectations document (environment-supplied JSON): expected queue
names, per-queue exact worker counts, and the surge failure limit used by
the failure-queue check of `evaluate_qdata`. -/
structure Expectations where
  expected_queues : List String
  expected_workers : List (String × Int)
  surge_failure_limit : Int
  deriving DecidableEq, Repr

/-- The `checks_result` dict returned by `evaluate_qdata`; each field is
`"ok"` or `"FAIL"`. -/
structure EvalResult where
  queue_check : String
  worker_check : String
  failure_queue_check : String
  deriving DecidableEq, Repr

/-- The queue-check loop of `evaluate_qdata` (lines 191–201): the first
expected queue missing from `data_dct['queues']` breaks with `FAIL`;
otherwise the flag stays `init` and the check is `ok`. -/
def queueCheckLoop (qs : List String) (snapQueues : List String) : String :=
  match qs with
  | [] => "ok"
  | q :: rest => if lmem q snapQueues then queueCheckLoop rest snapQueues else "FAIL"

/-- The worker-check loop of `evaluate_qdata` (lines 202–220): for each
expected `{queue, worker_count}`, a queue missing from
`workers_by_queue`, or a worker list of the wrong length, breaks with
`FAIL`; otherwise `ok`. -/
def workerCheckLoop (ws : List (String × Int))
    (wbq : List (String × List String)) : String :=
  match ws with
  | [] => "ok"
  | (q, c) :: rest =>
    match dictGet? wbq q with
    | none => "FAIL"
    | some names =>
      if (names.length : Int) ≠ c then "FAIL" else workerCheckLoop rest wbq

/-- `evaluate_qdata` (queue_check.py lines 166–233): the three independent
checks; the failure-queue check compares
`failed_count - previous_failed_count` against `surge_failure_limit`. -/
def evaluate_qdata (previous_failed_count : Int) (expectations : Expectations)
    (data_dct : Snapshot) : EvalResult :=
  { queue_check := queueCheckLoop expectations.expected_queues data_dct.queues,
    worker_check := workerCheckLoop expectations.expected_workers data_dct.workers_by_queue,
    failure_queue_check :=
      if data_dct.failed_count - previous_failed_count > expectations.surge_failure_limit
      then "FAIL" else "ok" }

/-- First doctest of `evaluate_qdata` (all ok). -/
example :
    evaluate_qdata 10
      ⟨["q1", "q2"], [("q1", 1)], 10⟩
      ⟨15, ["q1", "q2", "failed"],
       [("q1", ["server.123"]), ("q2", ["server.234"]), ("failed", [])]⟩ =
      ⟨"ok", "ok", "ok"⟩ := by decide

/-- Second doctest of `evaluate_qdata` (all FAIL). -/
example :
    evaluate_qdata 10
      ⟨["q1", "q2", "q3"], [("q1", 1), ("q2", 1)], 10⟩
      ⟨30, ["q1", "failed"], [("q1", ["server.123"]), ("failed", [])]⟩ =
      ⟨"FAIL", "FAIL", "FAIL"⟩ := by decide

/-! ## Basic lemmas about the helpers -/

theorem lmem_iff {α : Type} [DecidableEq α] (a : α) (l : List α) :
    lmem a l = true ↔ a ∈ l := by
  induction l with
  | nil => simp [lmem]
  | cons x r ih =>
    simp only [lmem]
    by_cases h : x = a
    · subst h; simp
    · rw [if_neg h, ih]
      constructor
      · intro hm; exact List.mem_cons_of_mem x hm
      · intro hm
        rcases List.mem_cons.mp hm with h' | hm'
        · exact absurd h'.symm h
        · exact hm'

/-- A check outcome that is `"ok"` or `"FAIL"` and is `"ok"` exactly when
`P` holds is `"FAIL"` exactly when `P` fails. -/
theorem okFailSplit {P : Prop} {s : String} (hor : s = "ok" ∨ s = "FAIL")
    (hiff : s = "ok" ↔ P) : (s = "ok" ↔ P) ∧ (s = "FAIL" ↔ ¬ P) := by
  refine ⟨hiff, ?_, ?_⟩
  · intro hf hp
    have hok := hiff.mpr hp
    rw [hok] at hf
    exact absurd hf (by decide)
  · intro hnp
    rcases hor with h | h
    · exact absurd (hiff.mp h) hnp
    · exact h

theorem queueCheckLoop_ok_iff (qs snapQueues : List String) :
    queueCheckLoop qs snapQueues = "ok" ↔ ∀ q ∈ qs, q ∈ snapQueues := by
  induction qs with
  | nil => simp [queueCheckLoop]
  | cons q rest ih =>
    by_cases h : lmem q snapQueues = true
    · have hq : q ∈ snapQueues := (lmem_iff q snapQueues).mp h
      simp [queueCheckLoop, h, ih, hq]
    · have hq : q ∉ snapQueues := fun hm => h ((lmem_iff q snapQueues).mpr hm)
      simp [queueCheckLoop, h, hq]

theorem queueCheckLoop_eq_ok_or_fail (qs snapQueues : List String) :
    queueCheckLoop qs snapQueues = "ok" ∨ queueCheckLoop qs snapQueues = "FAIL" := by
  induction qs with
  | nil => left; rfl
  | cons q rest ih =>
    by_cases h : lmem q snapQueues = true
    · simpa [queueCheckLoop, h] using ih
    · right; simp [queueCheckLoop, h]

theorem workerCheckLoop_ok_iff (ws : List (String × Int))
    (wbq : List (String × List String)) :
    workerCheckLoop ws wbq = "ok" ↔
      ∀ p ∈ ws, ∃ names, dictGet? wbq p.1 = some names ∧ (names.length : Int) = p.2 := by
  induction ws with
  | nil => simp [workerCheckLoop]
  | cons p rest ih =>
    obtain ⟨q, c⟩ := p
    cases hg : dictGet? wbq q with
    | none => simp [workerCheckLoop, hg]
    | some names =>
      by_cases hl : (names.length : Int) = c
      · simp [workerCheckLoop, hg, hl, ih]
      · simp [workerCheckLoop, hg, hl]

theorem workerCheckLoop_eq_ok_or_fail (ws : List (String × Int))
    (wbq : List (String × List String)) :
    workerCheckLoop ws wbq = "ok" ∨ workerCheckLoop ws wbq = "FAIL" := by
  induction ws with
  | nil => left; rfl
  | cons p rest ih =>
    obtain ⟨q, c⟩ := p
    cases hg : dictGet? wbq q with
    | none => right; simp [workerCheckLoop, hg]
    | some names =>
      by_cases hl : (names.length : Int) = c
      · simpa [workerCheckLoop, hg, hl] using ih
      · right; simp [workerCheckLoop, hg, hl]

/-! ## Claims about the evaluator -/

/-- **C5.** For every expectations value and snapshot, `evaluate_qdata`
returns `queue_check = ok` iff every name in `expected_queues` is an
element of the snapshot's `queues`; queues present in the snapshot but not
listed never cause a failure, and a missing expected queue yields `FAIL`. -/
theorem evaluate_queue_check_ok_iff (prev : Int) (exp : Expectations) (snap : Snapshot) :
    ((evaluate_qdata prev exp snap).queue_check = "ok" ↔
      ∀ q ∈ exp.expected_queues, q ∈ snap.queues) ∧
    ((evaluate_qdata prev exp snap).queue_check = "FAIL" ↔
      ¬ ∀ q ∈ exp.expected_queues, q ∈ snap.queues) :=
  okFailSplit (queueCheckLoop_eq_ok_or_fail exp.expected_queues snap.queues)
    (queueCheckLoop_ok_iff exp.expected_queues snap.queues)

/-- **C4.** For every expectations value and snapshot, `evaluate_qdata`
returns `worker_check = ok` iff for every `(queue, worker_count)` in
`expected_workers` the queue is a key of `workers_by_queue` and its worker
list has length exactly `worker_count`; a missing queue or a mismatched
count yields `FAIL`. -/
theorem evaluate_worker_check_ok_iff (prev : Int) (exp : Expectations) (snap : Snapshot) :
    ((evaluate_qdata prev exp snap).worker_check = "ok" ↔
      ∀ p ∈ exp.expected_workers,
        ∃ names, dictGet? snap.workers_by_queue p.1 = some names ∧
          (names.length : Int) = p.2) ∧
    ((evaluate_qdata prev exp snap).worker_check = "FAIL" ↔
      ¬ ∀ p ∈ exp.expected_workers,
        ∃ names, dictGet? snap.workers_by_queue p.1 = some names ∧
          (names.length : Int) = p.2) :=
  okFailSplit (workerCheckLoop_eq_ok_or_fail exp.expected_workers snap.workers_by_queue)
    (workerCheckLoop_ok_iff exp.expected_workers snap.workers_by_queue)

/-- **C3.** Under the surge/delta policy, `failure_queue_check = ok` iff
`failed_count - previous_failed_count ≤ surge_failure_limit`; an increase
of exactly the limit is `ok`, an increase of `limit + 1` is `FAIL`, and
(with the configured limit nonnegative, as the data model requires) any
zero or negative increase is `ok`. -/
theorem evaluate_failure_check_ok_iff (prev : Int) (exp : Expectations) (snap : Snapshot)
    (hlim : 0 ≤ exp.surge_failure_limit) :
    ((evaluate_qdata prev exp snap).failure_queue_check = "ok" ↔
      snap.failed_count - prev ≤ exp.surge_failure_limit) ∧
    (snap.failed_count - prev = exp.surge_failure_limit →
      (evaluate_qdata prev exp snap).failure_queue_check = "ok") ∧
    (snap.failed_count - prev = exp.surge_failure_limit + 1 →
      (evaluate_qdata prev exp snap).failure_queue_check = "FAIL") ∧
    (snap.failed_count - prev ≤ 0 →
      (evaluate_qdata prev exp snap).failure_queue_check = "ok") := by
  have hiff : (evaluate_qdata prev exp snap).failure_queue_check = "ok" ↔
      snap.failed_count - prev ≤ exp.surge_failure_limit := by
    show (if snap.failed_count - prev > exp.surge_failure_limit then "FAIL" else "ok") = "ok" ↔ _
    by_cases h : snap.failed_count - prev > exp.surge_failure_limit
    · rw [if_pos h]
      constructor
      · intro hf; exact absurd hf (by decide)
      · intro hle; exact absurd h (not_lt.mpr hle)
    · rw [if_neg h]
      constructor
      · intro _; exact not_lt.mp h
      · intro _; rfl
  refine ⟨hiff, ?_, ?_, ?_⟩
  · intro he; exact hiff.mpr (le_of_eq he)
  · intro he
    show (if snap.failed_count - prev > exp.surge_failure_limit then "FAIL" else "ok") = "FAIL"
    rw [if_pos (by omega)]
  · intro he; exact hiff.mpr (le_trans he hlim)

/-- Closed witness for `evaluate_failure_check_ok_iff` at concrete data:
previous count `10`, limit `5`, snapshot failed-count `15` (increase equal
to the limit). -/
theorem evaluate_failure_check_ok_iff_witness :
    (0 : Int) ≤ (5 : Int) ∧
      ((evaluate_qdata 10 ⟨[], [], 5⟩ ⟨15, [], []⟩).failure_queue_check = "ok" ↔
        (15 : Int) - 10 ≤ 5) :=
  ⟨by decide, (evaluate_failure_check_ok_iff 10 ⟨[], [], 5⟩ ⟨15, [], []⟩ (by decide)).1⟩

/-- Modelled from the spec: the absolute failure-budget policy (§4.2
*Absolute*), present in other revisions of this repository's script but not
in `src/queue_check.py` (which implements only the surge/delta policy).
The expectations carry `permitted_failures` instead of a surge limit, and
the failure-queue check is `ok` iff
`snapshot.failed_count ≤ permitted_failures`; the queue and worker checks
are those of the source. -/
def evaluate_qdata_absolute (permitted_failures : Int) (expectations : Expectations)
    (data_dct : Snapshot) : EvalResult :=
  { queue_check := queueCheckLoop expectations.expected_queues data_dct.queues,
    worker_check := workerCheckLoop expectations.expected_workers data_dct.workers_by_queue,
    failure_queue_check :=
      if data_dct.failed_count > permitted_failures then "FAIL" else "ok" }

/-- **C6.** Under the absolute failure-budget policy (expectations carrying
`permitted_failures`, no surge limit), the evaluator returns
`failure_queue_check = ok` iff `failed_count ≤ permitted_failures`. -/
theorem evaluate_absolute_failure_check_ok_iff (permitted : Int)
    (exp : Expectations) (snap : Snapshot) :
    (evaluate_qdata_absolute permitted exp snap).failure_queue_check = "ok" ↔
      snap.failed_count ≤ permitted := by
  show (if snap.failed_count > permitted then "FAIL" else "ok") = "ok" ↔ _
  by_cases h : snap.failed_count > permitted
  · rw [if_pos h]
    constructor
    · intro hf; exact absurd hf (by decide)
    · intro hle; exact absurd h (not_lt.mpr hle)
  · rw [if_neg h]
    constructor
    · intro _; exact not_lt.mp h
    · intro _; rfl

/-! ## The history store -/

/-- The Python exception raised by `open(path, 'r')` on a missing path. -/
inductive FileError where
  | fileNotFoundError
  deriving DecidableEq, Repr

/-- The decoded history record `previous_rqinfo_data.json`. -/
structure PrevData where
  failed_count : Int
  deriving DecidableEq, Repr

/-- Python `open(path, 'r')` + `f.read()` with the file system abstracted
to the optional content stored at the fixed history path: a missing path
raises `FileNotFoundError`. -/
def pyOpenRead {α : Type} (stored : Option α) : Except FileError α :=
  match stored with
  | none => .error .fileNotFoundError
  | some a => .ok a

/-- `load_previous_rqinfo_data` (queue_check.py lines 71–78): open the
fixed history path for reading and `json.loads` its contents (modelled as
the already-decoded record).  The body has no try/except, so the
`FileNotFoundError` of a missing path propagates to the caller. -/
def load_previous_rqinfo_data (stored : Option PrevData) : Except FileError PrevData :=
  match pyOpenRead stored with
  | .ok d => .ok d
  | .error e => .error e

/-- **C8, counterexample.** With no history record ever persisted (the
storage location missing on read, modelled by `none`), the load does not
succeed with 0: it raises `FileNotFoundError`. -/
theorem load_missing_history_counterexample :
    load_previous_rqinfo_data none = .error FileError.fileNotFoundError ∧
      load_previous_rqinfo_data none ≠ .ok ⟨0⟩ :=
  ⟨rfl, fun h => Except.noConfusion h⟩

/-- **C8, amended.** When the storage location is missing on read the load
raises `FileNotFoundError` (which `run_code` does not catch), rather than
returning 0; when a record is present the load returns it unchanged. -/
theorem load_missing_history_raises :
    (load_previous_rqinfo_data none = .error FileError.fileNotFoundError) ∧
      ∀ d : PrevData, load_previous_rqinfo_data (some d) = .ok d :=
  ⟨rfl, fun _ => rfl⟩

/-! ## Which lines set `failed_count` -/

/-- A line of the literal form `queue failed <count>`: exactly three
whitespace tokens, the first being `queue` and the second `failed`.  This
formalises the claim's phrase "a `queue failed <count>` line". -/
def isQueueFailedLine (l : List Char) : Bool :=
  match pySplitWs (pyStrip l) with
  | [a, b, _] => decide (a = "queue".data) && decide (b = "failed".data)
  | _ => false

/-- A line on which the parser's queue branch overwrites `failed_count`:
the stripped line *starts with* `queue` (not necessarily as a full token)
and the second of its exactly three whitespace tokens is `failed`. -/
def setsFailedCount (l : List Char) : Bool :=
  ("queue".data).isPrefixOf (pyStrip l) &&
    match pySplitWs (pyStrip l) with
    | [_, b, _] => decide (b = "failed".data)
    | _ => false

/-- **C10, counterexample.** The input `queuez failed 7` contains no
`queue failed <count>` line (its only line's first token is `queuez`), yet
`parse_rqinfo` returns a snapshot with `failed_count = 7`: the parser's
branch tests `line.startswith('queue')`, so any line *starting with*
`queue` whose second token is `failed` overwrites the count. -/
theorem parse_failed_count_counterexample :
    (pySplitSep '\n' ("queuez failed 7" : String).data).all
        (fun l => !isQueueFailedLine l) = true ∧
      parse_rqinfo "queuez failed 7" = .ok ⟨7, ["failed"], []⟩ ∧
      (7 : Int) ≠ 0 :=
  ⟨by decide, by rfl, by decide⟩

theorem parseLine_failed_count (st : Snapshot) (l : List Char)
    (h : setsFailedCount l = false) (snap : Snapshot)
    (hp : parseLine st l = .ok snap) : snap.failed_count = st.failed_count := by
  unfold parseLine at hp
  by_cases h0 : pyStrip l = []
  · rw [if_pos h0] at hp
    cases hp
    rfl
  · rw [if_neg h0] at hp
    by_cases hq : ("queue".data).isPrefixOf (pyStrip l) = true
    · rw [if_pos hq] at hp
      unfold setsFailedCount at h
      rw [hq, Bool.true_and] at h
      rcases hws : pySplitWs (pyStrip l) with _ | ⟨t0, _ | ⟨t1, _ | ⟨t2, _ | ts⟩⟩⟩ <;>
        rw [hws] at hp h
      · cases hp
      · cases hp
      · cases hp
      · dsimp only at hp
        by_cases hf : String.mk t1 = "failed"
        · exfalso
          have ht1 : t1 = "failed".data := congrArg String.data hf
          rw [ht1] at h
          simp at h
        · rw [if_neg hf] at hp
          cases hp
          rfl
      · cases hp
    · rw [if_neg hq] at hp
      rcases hcs : pySplitSep ':' (pyStrip l) with _ | ⟨p0, _ | ⟨p1, _ | ps⟩⟩ <;>
        rw [hcs] at hp
      · cases hp
      · cases hp
      · dsimp only at hp
        by_cases hd : pyStrip p1 = dashSentinel
        · rw [if_pos hd] at hp
          cases hp
          rfl
        · rw [if_neg hd] at hp
          cases hew : extractWorkers (pySplitSep ',' (pyStrip p1)) <;> rw [hew] at hp
          · cases hp
          · cases hp
            rfl
      · cases hp

theorem parseLines_failed_count (lines : List (List Char)) :
    ∀ st : Snapshot, (∀ l ∈ lines, setsFailedCount l = false) →
      ∀ snap, parseLines st lines = .ok snap → snap.failed_count = st.failed_count := by
  induction lines with
  | nil =>
    intro st _ snap hp
    cases hp
    rfl
  | cons l rest ih =>
    intro st h snap hp
    unfold parseLines at hp
    cases hpl : parseLine st l with
    | error e => rw [hpl] at hp; cases hp
    | ok st' =>
      rw [hpl] at hp
      have h1 := parseLine_failed_count st l (h l (List.mem_cons_self l rest)) st' hpl
      have h2 := ih st' (fun l' hl' => h l' (List.mem_cons_of_mem l hl')) snap hp
      rw [h2, h1]

/-- **C10, amended.** For every input none of whose lines both starts with
`queue` and has `failed` as the second of exactly three whitespace tokens,
any snapshot returned by `parse_rqinfo` has `failed_count = 0`. -/
theorem parse_no_failed_line_zero (s : String)
    (h : (pySplitSep '\n' s.data).all (fun l => !setsFailedCount l) = true)
    (snap : Snapshot) (hp : parse_rqinfo s = .ok snap) : snap.failed_count = 0 :=
  parseLines_failed_count (pySplitSep '\n' s.data) ⟨0, [], []⟩
    (fun l hl => by simpa using List.all_eq_true.mp h l hl) snap hp

/-- Closed witness for `parse_no_failed_line_zero` at the input
`queue q_1 0`. -/
theorem parse_no_failed_line_zero_witness :
    (pySplitSep '\n' ("queue q_1 0" : String).data).all
        (fun l => !setsFailedCount l) = true ∧
      (⟨0, ["q_1"], []⟩ : Snapshot).failed_count = 0 :=
  ⟨by decide, parse_no_failed_line_zero "queue q_1 0" (by decide) ⟨0, ["q_1"], []⟩ (by rfl)⟩

/-! ## Lines on which the parser raises -/

/-- Whether a parse result is a raised exception. -/
def isError : Except PyError Snapshot → Bool
  | .error _ => true
  | .ok _ => false

/-- A report line on which `parse_rqinfo` raises: non-blank, and either
(a) colon-free and not beginning with `queue`, so that unpacking
`line.split(':')` into two parts raises `ValueError`; or (b) beginning
with `queue` but not splitting into exactly three whitespace tokens, so
that unpacking `line.split()` raises `ValueError`; or (c) a three-token
line beginning with `queue` whose second token is `failed` and whose third
is not a Python integer literal, so that `int(count)` raises
`ValueError`. -/
def badLine (l : List Char) : Bool :=
  (!(pyStrip l).isEmpty) &&
    ((!lmem ':' (pyStrip l) && !("queue".data).isPrefixOf (pyStrip l)) ||
     (("queue".data).isPrefixOf (pyStrip l) &&
       match pySplitWs (pyStrip l) with
       | [_, b, c] => decide (b = "failed".data) && (pyInt c).isNone
       | _ => true))

theorem splitOnP_eq_self (p : Char → Bool) (l : List Char)
    (h : ∀ c ∈ l, p c = false) : splitOnP p l = [l] := by
  induction l with
  | nil => rfl
  | cons c rest ih =>
    have hrest := ih (fun c' hc' => h c' (List.mem_cons_of_mem c hc'))
    have hc := h c (List.mem_cons_self c rest)
    simp [splitOnP, hrest, hc]

theorem parseLine_error_of_badLine (st : Snapshot) (l : List Char)
    (hbad : badLine l = true) : isError (parseLine st l) = true := by
  unfold badLine at hbad
  rw [Bool.and_eq_true] at hbad
  obtain ⟨hne, hcase⟩ := hbad
  have h0 : pyStrip l ≠ [] := by
    intro h
    rw [h] at hne
    simp at hne
  unfold parseLine
  rw [if_neg h0]
  rw [Bool.or_eq_true] at hcase
  rcases hcase with hcase | hcase
  · rw [Bool.and_eq_true] at hcase
    obtain ⟨hnc, hnq⟩ := hcase
    have hq : ("queue".data).isPrefixOf (pyStrip l) = false := by
      cases hpre : ("queue".data).isPrefixOf (pyStrip l)
      · rfl
      · rw [hpre] at hnq
        simp at hnq
    have hnq' : ¬(("queue".data).isPrefixOf (pyStrip l) = true) := by
      rw [hq]
      exact Bool.false_ne_true
    rw [if_neg hnq']
    have hsep : pySplitSep ':' (pyStrip l) = [pyStrip l] := by
      apply splitOnP_eq_self
      intro c hc
      by_cases hcc : c = ':'
      · exfalso
        subst hcc
        have hm : lmem ':' (pyStrip l) = true := (lmem_iff _ _).mpr hc
        rw [hm] at hnc
        simp at hnc
      · simp [hcc]
    rw [hsep]
    rfl
  · rw [Bool.and_eq_true] at hcase
    obtain ⟨hq, hmatch⟩ := hcase
    rw [if_pos hq]
    rcases hws : pySplitWs (pyStrip l) with _ | ⟨t0, _ | ⟨t1, _ | ⟨t2, _ | ts⟩⟩⟩
    · rfl
    · rfl
    · rfl
    · rw [hws] at hmatch
      dsimp only at hmatch
      rw [Bool.and_eq_true] at hmatch
      obtain ⟨hb, hcnone⟩ := hmatch
      have ht1 : t1 = "failed".data := of_decide_eq_true hb
      dsimp only
      have hqn : String.mk t1 = "failed" := by rw [ht1]
      rw [if_pos hqn]
      cases hpi : pyInt t2 with
      | none => rfl
      | some n =>
        rw [hpi] at hcnone
        simp at hcnone
    · rfl

theorem parseLines_error_of_badLine (lines : List (List Char)) (l : List Char)
    (hmem : l ∈ lines) (hbad : badLine l = true) :
    ∀ st, isError (parseLines st lines) = true := by
  induction lines with
  | nil => cases hmem
  | cons l0 rest ih =>
    intro st
    unfold parseLines
    cases hpl : parseLine st l0 with
    | error e => rfl
    | ok st' =>
      rcases List.mem_cons.mp hmem with rfl | hmem'
      · have hberr := parseLine_error_of_badLine st l hbad
        rw [hpl] at hberr
        simp [isError] at hberr
      · exact ih hmem' st'

/-- **C9, amended.** For every input containing a non-blank line that is
colon-free and does not begin with `queue`, or that begins with `queue`
but does not have exactly three whitespace tokens, or that is a
three-token `queue`-prefixed line whose second token is `failed` and whose
count field is non-numeric, `parse_rqinfo` raises an error rather than
returning a snapshot; nothing in the parser catches it. -/
theorem parse_error_of_bad_line (s : String)
    (h : (pySplitSep '\n' s.data).any badLine = true) :
    isError (parse_rqinfo s) = true := by
  obtain ⟨l, hl, hbad⟩ := List.any_eq_true.mp h
  exact parseLines_error_of_badLine _ l hl hbad ⟨0, [], []⟩

/-- Closed witness for `parse_error_of_bad_line`: a non-blank, colon-free
line not beginning with `queue`. -/
theorem parse_error_of_bad_line_witness :
    (pySplitSep '\n' ("intermittent glitch" : String).data).any badLine = true ∧
      isError (parse_rqinfo "intermittent glitch") = true :=
  ⟨by decide, parse_error_of_bad_line "intermittent glitch" (by decide)⟩

/-- **C9, counterexample.** The input `queue q_1 abc` consists of one
`queue <name> <count>` line whose count field is non-numeric, yet
`parse_rqinfo` returns a snapshot instead of raising: `int(count)` is only
evaluated when the queue name is `failed`, so a non-numeric count on any
other queue line is silently ignored. -/
theorem parse_nonnumeric_count_counterexample :
    pySplitWs (pyStrip ("queue q_1 abc" : String).data) =
        ["queue".data, "q_1".data, "abc".data] ∧
      pyInt "abc".data = none ∧
      parse_rqinfo "queue q_1 abc" = .ok ⟨0, ["q_1"], []⟩ :=
  ⟨by decide, by decide, by rfl⟩

/-! ## Worker lines -/

/-- The first whitespace-delimited token of a worker descriptor, as a
string (with a default for the token-free case, on which the code raises
instead). -/
def firstTokenD (part : List Char) : String :=
  match pySplitWs part with
  | [] => ""
  | t :: _ => String.mk t

theorem extractWorkers_eq_map (parts : List (List Char))
    (h : ∀ p ∈ parts, (pySplitWs p).isEmpty = false) :
    extractWorkers parts = some (parts.map firstTokenD) := by
  induction parts with
  | nil => rfl
  | cons p rest ih =>
    have hp := h p (List.mem_cons_self p rest)
    have hrest := ih (fun q hq => h q (List.mem_cons_of_mem p hq))
    cases hws : pySplitWs p with
    | nil =>
      rw [hws] at hp
      exact absurd hp (by simp)
    | cons t ts =>
      have h1 : firstToken p = some (String.mk t) := by
        unfold firstToken
        rw [hws]
      have h2 : firstTokenD p = String.mk t := by
        unfold firstTokenD
        rw [hws]
      unfold extractWorkers
      rw [h1, hrest]
      simp [h2]

/-- **C7, counterexample.** A worker line whose worker list contains a
further colon does not set `workers_by_queue` from the part before the
first colon: `line.split(':')` splits at *every* colon and the unpacking
into two parts raises `ValueError`, so `parse_rqinfo` raises instead. -/
theorem parse_worker_colon_counterexample :
    parse_rqinfo "q_1: server:968 (idle)" = .error PyError.valueError :=
  by rfl

/-- **C7, amended.** For every non-blank stripped line that does not begin
with `queue` and contains exactly one colon, the parser takes the part
before the colon as the queue name and sets `workers_by_queue[<name>]` to
the ordered list of each comma-separated descriptor's first
whitespace-delimited token — empty when the remainder strips to the
em-dash-like sentinel — provided each descriptor has such a token (the
code raises `IndexError` otherwise). -/
theorem parseLine_worker_line (st : Snapshot) (line n w : List Char)
    (hstrip : pyStrip line = line)
    (hne : line ≠ [])
    (hq : ("queue".data).isPrefixOf line = false)
    (hcolon : pySplitSep ':' line = [n, w])
    (htok : (decide (pyStrip w = dashSentinel) ||
      (pySplitSep ',' (pyStrip w)).all (fun p => !(pySplitWs p).isEmpty)) = true) :
    parseLine st line = .ok { st with workers_by_queue :=
      (dictInsert (String.mk n)
        (if pyStrip w = dashSentinel then []
         else (pySplitSep ',' (pyStrip w)).map firstTokenD)
        st.workers_by_queue) } := by
  unfold parseLine
  rw [hstrip, if_neg hne, if_neg (show ¬(("queue".data).isPrefixOf line = true) by
    rw [hq]; exact Bool.false_ne_true), hcolon]
  dsimp only
  by_cases hd : pyStrip w = dashSentinel
  · rw [if_pos hd, if_pos hd]
  · rw [if_neg hd, if_neg hd]
    have hall : ∀ p ∈ pySplitSep ',' (pyStrip w), (pySplitWs p).isEmpty = false := by
      rw [Bool.or_eq_true] at htok
      rcases htok with h | h
      · exact absurd (of_decide_eq_true h) hd
      · intro p hp
        simpa using List.all_eq_true.mp h p hp
    rw [extractWorkers_eq_map _ hall]

/-- Closed witness for `parseLine_worker_line` at the concrete line
`q_7: w.1 (idle), w.2 (busy)` against the empty snapshot. -/
theorem parseLine_worker_line_witness :
    pyStrip ("q_7: w.1 (idle), w.2 (busy)" : String).data =
        ("q_7: w.1 (idle), w.2 (busy)" : String).data ∧
      ("q_7: w.1 (idle), w.2 (busy)" : String).data ≠ [] ∧
      ("queue".data).isPrefixOf ("q_7: w.1 (idle), w.2 (busy)" : String).data = false ∧
      pySplitSep ':' ("q_7: w.1 (idle), w.2 (busy)" : String).data =
        ["q_7".data, " w.1 (idle), w.2 (busy)".data] ∧
      parseLine ⟨0, [], []⟩ ("q_7: w.1 (idle), w.2 (busy)" : String).data =
        .ok ⟨0, [], [("q_7", ["w.1", "w.2"])]⟩ := by
  refine ⟨by decide, by decide, by decide, by decide, ?_⟩
  rw [parseLine_worker_line ⟨0, [], []⟩ ("q_7: w.1 (idle), w.2 (busy)" : String).data
    "q_7".data " w.1 (idle), w.2 (busy)".data (by decide) (by decide) (by decide)
    (by decide) (by decide)]
  rfl

/-! ## Well-formed reports and the queues/keys invariant -/

/-- Following the spec's description of a well-formed report line, refined
by the parser's branch conditions: blank; or a `queue <name> <count>` line
(first whitespace token literally `queue` — hence also a prefix of the
stripped line — with a numeric count); or a `<name>: <worker-list>` line
that does not begin with `queue`, contains exactly one colon, and whose
remainder is the dash sentinel or comma-separated descriptors each
containing a token. -/
def isWellFormedLine (l : List Char) : Bool :=
  (pyStrip l).isEmpty ||
  (("queue".data).isPrefixOf (pyStrip l) &&
    match pySplitWs (pyStrip l) with
    | [a, _, c] => decide (a = "queue".data) && (pyInt c).isSome
    | _ => false) ||
  (!("queue".data).isPrefixOf (pyStrip l) &&
    match pySplitSep ':' (pyStrip l) with
    | [_, w] =>
      decide (pyStrip w = dashSentinel) ||
        (pySplitSep ',' (pyStrip w)).all (fun p => !(pySplitWs p).isEmpty)
    | _ => false)

/-- The queue names a line contributes to `queues`: the second whitespace
token of a `queue`-branch line. -/
def lineQNames (l : List Char) : List String :=
  if pyStrip l = [] then []
  else if ("queue".data).isPrefixOf (pyStrip l) then
    match pySplitWs (pyStrip l) with
    | [_, qn, _] => [String.mk qn]
    | _ => []
  else []

/-- The queue names a line contributes to `workers_by_queue`: the part
before the colon of a worker-branch line with exactly one colon. -/
def lineWNames (l : List Char) : List String :=
  if pyStrip l = [] then []
  else if ("queue".data).isPrefixOf (pyStrip l) then []
  else
    match pySplitSep ':' (pyStrip l) with
    | [qn, _] => [String.mk qn]
    | _ => []

/-- All queue names on the report's `queue` lines. -/
def qNamesOf (lines : List (List Char)) : List String :=
  (lines.map lineQNames).flatten

/-- All queue names on the report's worker lines. -/
def wNamesOf (lines : List (List Char)) : List String :=
  (lines.map lineWNames).flatten

/-- Two lists of names are equal as sets. -/
def eqAsSets (xs ys : List String) : Bool :=
  xs.all (fun a => lmem a ys) && ys.all (fun a => lmem a xs)

theorem eqAsSets_iff (xs ys : List String) :
    eqAsSets xs ys = true ↔ ∀ a, a ∈ xs ↔ a ∈ ys := by
  unfold eqAsSets
  rw [Bool.and_eq_true, List.all_eq_true, List.all_eq_true]
  constructor
  · rintro ⟨h1, h2⟩ a
    constructor
    · intro ha
      exact (lmem_iff a ys).mp (h1 a ha)
    · intro ha
      exact (lmem_iff a xs).mp (h2 a ha)
  · intro h
    constructor
    · intro a ha
      exact (lmem_iff a ys).mpr ((h a).mp ha)
    · intro a ha
      exact (lmem_iff a xs).mpr ((h a).mpr ha)

theorem mem_keys_dictInsert {α : Type} (k : String) (v : α)
    (d : List (String × α)) (a : String) :
    a ∈ (dictInsert k v d).map Prod.fst ↔ a = k ∨ a ∈ d.map Prod.fst := by
  induction d with
  | nil => simp [dictInsert]
  | cons p rest ih =>
    obtain ⟨k', v'⟩ := p
    by_cases h : k' = k
    · subst h
      simp [dictInsert]
    · simp only [dictInsert, if_neg h, List.map_cons, List.mem_cons, ih]
      tauto

/-- **C2, counterexample.** The report `queue q_1 0` is well-formed (one
`queue <name> <count>` line), yet the snapshot it parses to has `q_1` in
`queues` and no keys at all in `workers_by_queue`: queue-section names are
never added to the worker map, so the two sets need not agree. -/
theorem parse_wf_sets_counterexample :
    (pySplitSep '\n' ("queue q_1 0" : String).data).all isWellFormedLine = true ∧
      parse_rqinfo "queue q_1 0" = .ok ⟨0, ["q_1"], []⟩ ∧
      lmem "q_1" (Snapshot.queues ⟨0, ["q_1"], []⟩) = true ∧
      lmem "q_1" (snapKeys ⟨0, ["q_1"], []⟩) = false :=
  ⟨by decide, by rfl, by decide, by decide⟩

theorem parseLine_wf (st : Snapshot) (l : List Char)
    (h : isWellFormedLine l = true) :
    ∃ st', parseLine st l = .ok st' ∧
      (∀ a, a ∈ st'.queues ↔ a ∈ st.queues ∨ a ∈ lineQNames l) ∧
      (∀ a, a ∈ snapKeys st' ↔ a ∈ snapKeys st ∨ a ∈ lineWNames l) := by
  unfold isWellFormedLine at h
  by_cases h0 : pyStrip l = []
  · refine ⟨st, ?_, ?_, ?_⟩
    · unfold parseLine
      rw [if_pos h0]
    · intro a
      simp [lineQNames, h0]
    · intro a
      simp [lineWNames, h0]
  · have hie : (pyStrip l).isEmpty = false := by
      cases hpl : pyStrip l with
      | nil => exact absurd hpl h0
      | cons c cs => rfl
    by_cases hq : ("queue".data).isPrefixOf (pyStrip l) = true
    · rw [hie, hq] at h
      simp only [Bool.false_or, Bool.true_and, Bool.not_true, Bool.false_and,
        Bool.or_false] at h
      rcases hws : pySplitWs (pyStrip l) with _ | ⟨t0, _ | ⟨t1, _ | ⟨t2, _ | ts⟩⟩⟩ <;>
        rw [hws] at h
      · simp at h
      · simp at h
      · simp at h
      · rw [Bool.and_eq_true] at h
        obtain ⟨ht0, hcs⟩ := h
        obtain ⟨cnt, hcnt⟩ := Option.isSome_iff_exists.mp hcs
        have hqiff : ∀ a : String,
            a ∈ st.queues ++ [String.mk t1] ↔ a ∈ st.queues ∨ a ∈ lineQNames l := by
          intro a
          simp [lineQNames, h0, hq, hws]
        by_cases hf : String.mk t1 = "failed"
        · refine ⟨⟨cnt, st.queues ++ [String.mk t1], st.workers_by_queue⟩, ?_, hqiff, ?_⟩
          · unfold parseLine
            rw [if_neg h0, if_pos hq, hws]
            dsimp only
            rw [if_pos hf, hcnt]
          · intro a
            simp [snapKeys, lineWNames, h0, hq]
        · refine ⟨⟨st.failed_count, st.queues ++ [String.mk t1], st.workers_by_queue⟩,
            ?_, hqiff, ?_⟩
          · unfold parseLine
            rw [if_neg h0, if_pos hq, hws]
            dsimp only
            rw [if_neg hf]
          · intro a
            simp [snapKeys, lineWNames, h0, hq]
      · simp at h
    · have hqf : ("queue".data).isPrefixOf (pyStrip l) = false := by
        cases hpre : ("queue".data).isPrefixOf (pyStrip l)
        · rfl
        · exact absurd hpre hq
      rw [hie, hqf] at h
      simp only [Bool.false_or, Bool.false_and, Bool.not_false, Bool.true_and] at h
      rcases hcs : pySplitSep ':' (pyStrip l) with _ | ⟨p0, _ | ⟨p1, _ | ps⟩⟩ <;>
        rw [hcs] at h
      · simp at h
      · simp at h
      · have hwiff : ∀ (names : List String) (a : String),
            a ∈ snapKeys ⟨st.failed_count, st.queues,
                dictInsert (String.mk p0) names st.workers_by_queue⟩ ↔
              a ∈ snapKeys st ∨ a ∈ lineWNames l := by
          intro names a
          unfold snapKeys
          dsimp only
          rw [mem_keys_dictInsert]
          have hl : lineWNames l = [String.mk p0] := by
            unfold lineWNames
            rw [if_neg h0, if_neg hq, hcs]
          rw [hl]
          simp [snapKeys]
          tauto
        have hqiff : ∀ a : String,
            a ∈ st.queues ↔ a ∈ st.queues ∨ a ∈ lineQNames l := by
          intro a
          have hl : lineQNames l = [] := by
            unfold lineQNames
            rw [if_neg h0, if_neg hq]
          rw [hl]
          simp
        by_cases hd : pyStrip p1 = dashSentinel
        · refine ⟨⟨st.failed_count, st.queues,
              dictInsert (String.mk p0) [] st.workers_by_queue⟩, ?_, hqiff, hwiff []⟩
          unfold parseLine
          rw [if_neg h0, if_neg hq, hcs]
          dsimp only
          rw [if_pos hd]
        · rw [Bool.or_eq_true] at h
          rcases h with h | h
          · exact absurd (of_decide_eq_true h) hd
          · have hall : ∀ p ∈ pySplitSep ',' (pyStrip p1), (pySplitWs p).isEmpty = false := by
              intro p hp
              simpa using List.all_eq_true.mp h p hp
            refine ⟨⟨st.failed_count, st.queues,
                dictInsert (String.mk p0)
                  ((pySplitSep ',' (pyStrip p1)).map firstTokenD) st.workers_by_queue⟩,
              ?_, hqiff, hwiff _⟩
            unfold parseLine
            rw [if_neg h0, if_neg hq, hcs]
            dsimp only
            rw [if_neg hd, extractWorkers_eq_map _ hall]
      · simp at h

theorem parseLines_wf (lines : List (List Char)) :
    ∀ st : Snapshot, (∀ l ∈ lines, isWellFormedLine l = true) →
      ∃ st', parseLines st lines = .ok st' ∧
        (∀ a, a ∈ st'.queues ↔ a ∈ st.queues ∨ a ∈ qNamesOf lines) ∧
        (∀ a, a ∈ snapKeys st' ↔ a ∈ snapKeys st ∨ a ∈ wNamesOf lines) := by
  induction lines with
  | nil =>
    intro st _
    refine ⟨st, rfl, ?_, ?_⟩
    · intro a
      simp [qNamesOf]
    · intro a
      simp [wNamesOf]
  | cons l rest ih =>
    intro st h
    obtain ⟨st1, hp1, hq1, hk1⟩ := parseLine_wf st l (h l (List.mem_cons_self l rest))
    obtain ⟨st2, hp2, hq2, hk2⟩ := ih st1 (fun l' hl' => h l' (List.mem_cons_of_mem l hl'))
    refine ⟨st2, ?_, ?_, ?_⟩
    · unfold parseLines
      rw [hp1]
      exact hp2
    · intro a
      rw [hq2 a, hq1 a]
      simp only [qNamesOf, List.map_cons, List.flatten_cons, List.mem_append]
      constructor
      · rintro ((hs | hql) | hqr)
        · exact Or.inl hs
        · exact Or.inr (Or.inl hql)
        · exact Or.inr (Or.inr hqr)
      · rintro (hs | hql | hqr)
        · exact Or.inl (Or.inl hs)
        · exact Or.inl (Or.inr hql)
        · exact Or.inr hqr
    · intro a
      rw [hk2 a, hk1 a]
      simp only [wNamesOf, List.map_cons, List.flatten_cons, List.mem_append]
      constructor
      · rintro ((hs | hql) | hqr)
        · exact Or.inl hs
        · exact Or.inr (Or.inl hql)
        · exact Or.inr (Or.inr hqr)
      · rintro (hs | hql | hqr)
        · exact Or.inl (Or.inl hs)
        · exact Or.inl (Or.inr hql)
        · exact Or.inr hqr

/-- **C2, amended.** For every report whose every line is well-formed —
blank, a `queue <name> <count>` line with numeric count, or a
`<name>: <worker-list>` line with exactly one colon not beginning with
`queue` — and in which the set of names on `queue` lines equals the set of
names on worker lines, `parse_rqinfo` returns a snapshot whose set of
`queues` elements equals the set of `workers_by_queue` keys. -/
theorem parse_wellformed_sets_agree (s : String)
    (hwf : (pySplitSep '\n' s.data).all isWellFormedLine = true)
    (hagree : eqAsSets (qNamesOf (pySplitSep '\n' s.data))
      (wNamesOf (pySplitSep '\n' s.data)) = true) :
    ∃ snap, parse_rqinfo s = .ok snap ∧ eqAsSets snap.queues (snapKeys snap) = true := by
  obtain ⟨snap, hp, hq, hk⟩ := parseLines_wf (pySplitSep '\n' s.data) ⟨0, [], []⟩
    (fun l hl => List.all_eq_true.mp hwf l hl)
  refine ⟨snap, hp, ?_⟩
  rw [eqAsSets_iff]
  intro a
  rw [hq a, hk a]
  have hag := (eqAsSets_iff _ _).mp hagree a
  constructor
  · rintro (hs | hql)
    · exact absurd hs (by simp)
    · exact Or.inr (hag.mp hql)
  · rintro (hs | hqr)
    · exact absurd hs (by simp [snapKeys])
    · exact Or.inr (hag.mpr hqr)

/-- Closed witness for `parse_wellformed_sets_agree` at the Scenario A
report, whose queue-line and worker-line name sets agree. -/
theorem parse_wellformed_sets_agree_witness :
    (pySplitSep '\n' scenarioA.data).all isWellFormedLine = true ∧
      eqAsSets (qNamesOf (pySplitSep '\n' scenarioA.data))
        (wNamesOf (pySplitSep '\n' scenarioA.data)) = true ∧
      ∃ snap, parse_rqinfo scenarioA = .ok snap ∧
        eqAsSets snap.queues (snapKeys snap) = true :=
  ⟨by decide, by decide, parse_wellformed_sets_agree scenarioA (by decide) (by decide)⟩

end QueueChecker
